import Mathlib

/-!
# Verification of the zksync-revm core against its specification

Shallow embedding of the ZKsync OS revm extension: the transaction
handler (`src/handler.rs`), the L1 fee oracle (`src/l1block.rs`), the
precompile dispatch (`src/precompiles.rs`) and the three system
precompiles (`src/precompiles/{deployer,l1_messenger,l2_base_token}.rs`).

Machine integers are embedded as `Nat` with explicit saturation or
wrap-around where the source uses `saturating_*` / `wrapping_*`
operations; byte strings are `List Nat` of base-256 digits; fallible
paths return `Option`/`Except` or explicit result values.
-/

namespace ZkRevm

/-- `u64::MAX`. -/
def U64_MAX : Nat := 2 ^ 64 - 1

/-- `U256::MAX`. -/
def U256_MAX : Nat := 2 ^ 256 - 1

/-- `u64::saturating_add`. -/
def satAdd64 (a b : Nat) : Nat := min (a + b) U64_MAX

/-- `u64::saturating_mul`. -/
def satMul64 (a b : Nat) : Nat := min (a * b) U64_MAX

/-- `U256::saturating_add`. -/
def usatAdd (a b : Nat) : Nat := min (a + b) U256_MAX

/-- `U256::saturating_mul`. -/
def usatMul (a b : Nat) : Nat := min (a * b) U256_MAX

/-- `U256::saturating_sub` (on `Nat` ordinary subtraction already saturates at 0). -/
def usatSub (a b : Nat) : Nat := a - b

/-- Big-endian base-256 value of a byte slice (`U256::from_be_slice`). -/
def fromBe (bs : List Nat) : Nat := bs.foldl (fun a b => a * 256 + b) 0

/-- Big-endian byte encoding of `v` on `k` bytes (ABI 32-byte words use `k = 32`). -/
def beBytes : Nat → Nat → List Nat
  | 0, _ => []
  | k + 1, v => beBytes k (v / 256) ++ [v % 256]

/-! ## L1 fee oracle (`src/l1block.rs`) -/

/-- Base-engine calldata gas constant `STANDARD_TOKEN_COST` (4 gas per token). -/
def STANDARD_TOKEN_COST : Nat := 4

/-- Base-engine calldata gas constant `NON_ZERO_BYTE_MULTIPLIER_ISTANBUL`:
a non-zero byte counts as 4 tokens. -/
def NON_ZERO_BYTE_MULTIPLIER_ISTANBUL : Nat := 4

/-- Constant `NON_ZERO_BYTE_COST` (16 gas per non-zero calldata byte),
used as the fixed-point scale of the Ecotone formula. -/
def NON_ZERO_BYTE_COST : Nat := 16

/-- Base-engine `get_tokens_in_calldata` with the Istanbul flag set, as used by
`L1BlockInfo::data_gas`: each zero byte weighs 1 token, each non-zero byte
weighs `NON_ZERO_BYTE_MULTIPLIER_ISTANBUL` tokens. -/
def get_tokens_in_calldata (input : List Nat) : Nat :=
  input.foldl (fun acc b => acc + if b = 0 then 1 else NON_ZERO_BYTE_MULTIPLIER_ISTANBUL) 0

/-- `L1BlockInfo` (`src/l1block.rs`): the cached pricing snapshot.  Only the
fields consulted by the cost functions are carried. -/
structure L1BlockInfo where
  l2_block : Nat := 0
  l1_base_fee : Nat := 0
  l1_fee_overhead : Option Nat := none
  l1_base_fee_scalar : Nat := 0
  l1_blob_base_fee : Option Nat := none
  l1_blob_base_fee_scalar : Option Nat := none
  operator_fee_scalar : Option Nat := none
  operator_fee_constant : Option Nat := none
  empty_ecotone_scalars : Bool := false
  tx_l1_cost : Option Nat := none
  deriving Repr, DecidableEq

namespace L1BlockInfo

/-- `L1BlockInfo::data_gas`: tokens in calldata times the per-token cost
(`u64` saturating multiplication in the source). -/
def data_gas (self : L1BlockInfo) (input : List Nat) : Nat :=
  satMul64 (get_tokens_in_calldata input) STANDARD_TOKEN_COST

/-- `L1BlockInfo::calculate_tx_l1_cost_bedrock`: the pre-Ecotone (legacy)
cost formula, with the source's saturating `U256` arithmetic and wrapping
division by 1,000,000. -/
def calculate_tx_l1_cost_bedrock (self : L1BlockInfo) (input : List Nat) : Nat :=
  let rollup_data_gas_cost := self.data_gas input
  usatMul (usatMul (usatAdd rollup_data_gas_cost (self.l1_fee_overhead.getD 0))
      self.l1_base_fee) self.l1_base_fee_scalar / 1000000

/-- `L1BlockInfo::calculate_l1_fee_scaled_ecotone`:
`l1BaseFee*16*l1BaseFeeScalar + l1BlobBaseFee*l1BlobBaseFeeScalar`. -/
def calculate_l1_fee_scaled_ecotone (self : L1BlockInfo) : Nat :=
  let calldata_cost_per_byte :=
    usatMul (usatMul self.l1_base_fee NON_ZERO_BYTE_COST) self.l1_base_fee_scalar
  let blob_cost_per_byte :=
    usatMul (self.l1_blob_base_fee.getD 0) (self.l1_blob_base_fee_scalar.getD 0)
  usatAdd calldata_cost_per_byte blob_cost_per_byte

/-- `L1BlockInfo::calculate_tx_l1_cost_ecotone`: the post-Ecotone cost
formula, falling back to the Bedrock formula when `empty_ecotone_scalars`. -/
def calculate_tx_l1_cost_ecotone (self : L1BlockInfo) (input : List Nat) : Nat :=
  if self.empty_ecotone_scalars then
    self.calculate_tx_l1_cost_bedrock input
  else
    let rollup_data_gas_cost := self.data_gas input
    let l1_fee_scaled := self.calculate_l1_fee_scaled_ecotone
    usatMul l1_fee_scaled rollup_data_gas_cost / (1000000 * NON_ZERO_BYTE_COST)

/-- `L1BlockInfo::clear_tx_l1_cost`. -/
def clear_tx_l1_cost (self : L1BlockInfo) : L1BlockInfo :=
  { self with tx_l1_cost := none }

/-- `L1BlockInfo::calculate_tx_l1_cost`, exactly as the source has it: the
method returns the memoized value when present, and otherwise returns
`U256::ZERO` without computing any formula and without writing the memo.
The `&mut self` receiver is embedded by also returning the (unchanged)
snapshot. -/
def calculate_tx_l1_cost (self : L1BlockInfo) (input : List Nat) : Nat × L1BlockInfo :=
  match self.tx_l1_cost with
  | some tx_l1_cost => (tx_l1_cost, self)
  | none => (0, self)

end L1BlockInfo

/-! ## Precompile dispatch (`src/precompiles.rs`) -/

/-- `CONTRACT_DEPLOYER_ADDRESS` (`0x…8006`), as a 160-bit number. -/
def CONTRACT_DEPLOYER_ADDRESS : Nat := 0x8006

/-- `L1_MESSENGER_ADDRESS` (`0x…8008`). -/
def L1_MESSENGER_ADDRESS : Nat := 0x8008

/-- `L2_BASE_TOKEN_ADDRESS` (`0x…800a`). -/
def L2_BASE_TOKEN_ADDRESS : Nat := 0x800a

/-- The addresses of the standard precompiles installed by
`ZKsyncPrecompiles::new_with_spec` for the `Atlas` spec: ecrecover (0x01),
sha256 (0x02), ripemd160 (0x03), identity (0x04), modexp (0x05), bn254
add/mul/pair (0x06–0x08).  These are the base engine's fixed precompile
addresses. -/
def ETH_PRECOMPILE_ADDRESSES : List Nat := [1, 2, 3, 4, 5, 6, 7, 8]

/-- `<ZKsyncPrecompiles as PrecompileProvider>::warm_addresses`: the source
delegates to `self.inner.warm_addresses()`, i.e. the addresses of the inner
Ethereum precompile set only. -/
def warm_addresses : List Nat := ETH_PRECOMPILE_ADDRESSES

/-- `<ZKsyncPrecompiles as PrecompileProvider>::contains`: the source
delegates to `self.inner.contains(address)`. -/
def contains (address : Nat) : Bool := ETH_PRECOMPILE_ADDRESSES.contains address

/-- The address test of `<ZKsyncPrecompiles as PrecompileProvider>::run`:
`run` intercepts exactly the three fixed system-contract addresses before
falling through to the inner set. -/
def run_intercepts (address : Nat) : Bool :=
  address == CONTRACT_DEPLOYER_ADDRESS || address == L1_MESSENGER_ADDRESS ||
    address == L2_BASE_TOKEN_ADDRESS

/-! ## Shared precompile result types -/

/-- The interpreter instruction results produced by the system precompiles. -/
inductive InstructionResult where
  | Return
  | Revert
  | OutOfGas
  deriving Repr, DecidableEq

/-! ## Contract Deployer precompile (`src/precompiles/deployer.rs`) -/

/-- `SET_DEPLOYED_CODE_EVM_SELECTOR` = `1223adc7`. -/
def SET_DEPLOYED_CODE_EVM_SELECTOR : List Nat := [0x12, 0x23, 0xad, 0xc7]

/-- `L2_GENESIS_UPGRADE_ADDRESS` (`0x…10001`). -/
def L2_GENESIS_UPGRADE_ADDRESS : Nat := 0x10001

/-- `MAX_CODE_SIZE` = `0x6000`. -/
def MAX_CODE_SIZE : Nat := 0x6000

/-- `deployer_precompile_call` (`src/precompiles/deployer.rs`).  Every exit of
the source returns an empty output together with `Gas::new(gas_limit)`, so the
embedding returns only the `InstructionResult`.  The source indexes
`calldata[bytecode_length_encoding_end - 32..bytecode_length_encoding_end]`
without a preceding bounds check, which panics in Rust when the slice end
exceeds the calldata length; the embedding returns `none` there.  `usize` and
`u32` conversions from `U256` fail (and revert) when the value does not fit. -/
def deployer_precompile_call (caller : Nat) (is_static : Bool)
    (calldata : List Nat) : Option InstructionResult :=
  if calldata.length < 4 then some .Revert
  else if calldata.take 4 = SET_DEPLOYED_CODE_EVM_SELECTOR then
    if is_static then some .Revert
    else if caller ≠ L2_GENESIS_UPGRADE_ADDRESS then some .Revert
    else
      let cd := calldata.drop 4
      if cd.length < 64 then some .Revert
      else if (cd.take 12).any (fun b => b ≠ 0) then some .Revert
      else
        -- `B160::try_from_be_slice(&calldata[12..32])`
        let address := fromBe ((cd.drop 12).take 20)
        if address ≥ 2 ^ 160 then some .Revert
        else
          let bytecode_offset := fromBe ((cd.drop 32).take 32)
          if bytecode_offset ≥ 2 ^ 64 then some .Revert  -- usize::try_from failed
          else if bytecode_offset + 32 > U64_MAX then some .Revert  -- checked_add
          else
            let bytecode_length_encoding_end := bytecode_offset + 32
            if cd.length < bytecode_length_encoding_end then none  -- slice panic
            else
              let bytecode_length :=
                fromBe ((cd.drop (bytecode_length_encoding_end - 32)).take 32)
              if bytecode_length ≥ 2 ^ 64 then some .Revert  -- usize::try_from failed
              else if cd.length < bytecode_length_encoding_end + bytecode_length then
                some .Revert
              else
                let bytecode :=
                  (cd.drop bytecode_length_encoding_end).take bytecode_length
                if (bytecode ≠ [] ∧ bytecode.head? = some 0xEF) ∨
                    bytecode.length > MAX_CODE_SIZE then some .Revert
                else some .Return
  else some .Revert

/-- Well-formed `setDeployedCodeEVM(address,bytes)` calldata: selector, the
address word (12 zero padding bytes and 20 address bytes), the offset word
(64), the length word, then the code bytes. -/
def encodeSetDeployedCode (addr20 : List Nat) (code : List Nat) : List Nat :=
  SET_DEPLOYED_CODE_EVM_SELECTOR ++ List.replicate 12 0 ++ addr20 ++
    beBytes 32 64 ++ beBytes 32 code.length ++ code

/-- The post-selector part of `encodeSetDeployedCode`, right-nested. -/
def setCodeTail (addr20 : List Nat) (code : List Nat) : List Nat :=
  List.replicate 12 0 ++ (addr20 ++ (beBytes 32 64 ++ (beBytes 32 code.length ++ code)))

/-! ## L1 Messenger precompile (`src/precompiles/l1_messenger.rs`) -/

/-- `u32::MAX`. -/
def U32_MAX : Nat := 2 ^ 32 - 1

/-- Base-engine gas constant `KECCAK256` (30). -/
def KECCAK256_GAS : Nat := 30

/-- Base-engine gas constant `KECCAK256WORD` (6 per 32-byte word). -/
def KECCAK256WORD_GAS : Nat := 6

/-- Base-engine gas constant `LOG` (375). -/
def LOG_GAS : Nat := 375

/-- Base-engine gas constant `LOGTOPIC` (375 per topic). -/
def LOGTOPIC_GAS : Nat := 375

/-- Base-engine gas constant `LOGDATA` (8 per payload byte). -/
def LOGDATA_GAS : Nat := 8

/-- `SEND_TO_L1_SELECTOR` = `62f84b24`. -/
def SEND_TO_L1_SELECTOR : List Nat := [0x62, 0xf8, 0x4b, 0x24]

/-- `L1_MESSAGE_SENT_TOPIC` as a 256-bit number. -/
def L1_MESSAGE_SENT_TOPIC : Nat :=
  fromBe [0x3a, 0x36, 0xe4, 0x72, 0x91, 0xf4, 0x20, 0x1f, 0xaf, 0x13, 0x7f, 0xab,
    0x08, 0x1d, 0x92, 0x29, 0x5b, 0xce, 0x2d, 0x53, 0xbe, 0x2c, 0x6c, 0xa6,
    0x8b, 0xa8, 0x2c, 0x7f, 0xaa, 0x9c, 0xe2, 0x41]

/-- A 32-byte word appearing in a log topic or a call output: either a plain
value (addresses are left-padded to 32 bytes, which preserves the value), or
the keccak-256 hash of a byte string.  The hash function itself belongs to the
base engine (`revm::primitives::keccak256`) and is kept abstract: it is
represented by its preimage. -/
inductive Word32 where
  | val (v : Nat)
  | keccakOf (preimage : List Nat)
  deriving Repr, DecidableEq

/-- A log record (`revm::primitives::Log`). -/
structure LogRec where
  address : Nat
  topics : List Word32
  data : List Nat
  deriving Repr, DecidableEq

/-- Result of one messenger invocation: the instruction result, the call
output, the gas remaining in the returned `Gas` object, every log emitted
through the journal, and every byte string passed to `keccak256`. -/
structure MessengerResult where
  result : InstructionResult
  output : Option Word32
  gasRemaining : Nat
  logs : List LogRec
  hashed : List (List Nat)
  deriving Repr, DecidableEq

/-- An erroring messenger exit: `error()` clones the current gas object. -/
def messengerRevert (gasRemaining : Nat) : MessengerResult :=
  { result := .Revert, output := none, gasRemaining := gasRemaining,
    logs := [], hashed := [] }

/-- `oog_error()`: out-of-gas with `Gas::new(0)`. -/
def messengerOog : MessengerResult :=
  { result := .OutOfGas, output := none, gasRemaining := 0, logs := [], hashed := [] }

/-- `l1_messenger_precompile_call` (`src/precompiles/l1_messenger.rs`),
following the source's control flow exactly.  `u32` conversions of
`calldata.len()` and of the decoded offset/length revert when the value does
not fit; `checked_add` failures revert. -/
def l1_messenger_precompile_call (caller : Nat) (is_static : Bool)
    (gas_limit : Nat) (call_value : Nat) (calldata : List Nat) : MessengerResult :=
  -- `gas.record_cost(10)`
  if gas_limit < 10 then messengerOog
  else
    let gasr := gas_limit - 10
    if calldata.length < 4 then messengerRevert gasr
    else if calldata.take 4 = SEND_TO_L1_SELECTOR then
      if call_value ≠ 0 then messengerRevert gasr
      else if is_static then messengerRevert gasr
      else
        let cd := calldata.drop 4
        -- `let abi_encoded_message_len: u32 = calldata.len().try_into()`
        if cd.length > U32_MAX then messengerRevert gasr
        else if cd.length < 32 then messengerRevert gasr
        else
          let message_offset := fromBe (cd.take 32)
          if message_offset > U32_MAX then messengerRevert gasr
          else if message_offset ≠ 32 then messengerRevert gasr
          -- `message_offset.checked_add(32)` cannot overflow once the offset is 32
          else
            let length_encoding_end := 32 + 32
            if cd.length < length_encoding_end then messengerRevert gasr
            else
              let length := fromBe ((cd.drop (length_encoding_end - 32)).take 32)
              if length > U32_MAX then messengerRevert gasr
              -- `length_encoding_end.checked_add(length)` over `u32`
              else if length_encoding_end + length > U32_MAX then messengerRevert gasr
              else
                let message_end := length_encoding_end + length
                if cd.length < message_end then messengerRevert gasr
                else if cd.length % 32 ≠ 0 then messengerRevert gasr
                else
                  let message := (cd.drop length_encoding_end).take length
                  let words := (message.length + 31) / 32
                  let keccak256_gas := satAdd64 KECCAK256_GAS (satMul64 KECCAK256WORD_GAS words)
                  let log_gas := satAdd64 (satAdd64 LOG_GAS (satMul64 LOGTOPIC_GAS 3))
                    (satMul64 LOGDATA_GAS message.length)
                  let needed_gas := keccak256_gas + log_gas
                  if gasr < needed_gas then messengerOog
                  else
                    { result := .Return,
                      output := some (.keccakOf message),
                      gasRemaining := gasr - needed_gas,
                      logs := [{ address := L1_MESSENGER_ADDRESS,
                                 topics := [.val L1_MESSAGE_SENT_TOPIC, .val caller,
                                   .keccakOf message],
                                 data := cd }],
                      hashed := [message] }
    else messengerRevert gasr

/-- Strict single-`bytes` ABI encoding used by `sendToL1`: selector, offset
word (32), length word, message, zero padding to a 32-byte multiple. -/
def encodeSendToL1 (message : List Nat) : List Nat :=
  SEND_TO_L1_SELECTOR ++ beBytes 32 32 ++ beBytes 32 message.length ++ message ++
    List.replicate ((32 - message.length % 32) % 32) 0

/-- Total gas the messenger charges for an `n`-byte message: the fixed
dispatch charge of 10, the keccak cost, and the log cost. -/
def messengerGasCharged (n : Nat) : Nat :=
  10 + (KECCAK256_GAS + KECCAK256WORD_GAS * ((n + 31) / 32)) +
    (LOG_GAS + 3 * LOGTOPIC_GAS + LOGDATA_GAS * n)

/-! ## Transaction envelope (`src/transaction/`) -/

/-- `UPGRADE_TRANSACTION_TYPE` = `0x7E`. -/
def UPGRADE_TRANSACTION_TYPE : Nat := 0x7E

/-- `L1_PRIORITY_TRANSACTION_TYPE` = `0x7F`. -/
def L1_PRIORITY_TRANSACTION_TYPE : Nat := 0x7f

/-- The transaction fields the handler consults.  `max_balance_spending`,
`effective_balance_spending` and `base_effective_gas_price` are values of
base-engine trait methods (`Transaction::max_balance_spending` etc.) carried
at the boundary. -/
structure Tx where
  tx_type : Nat
  nonce : Nat
  gas_limit : Nat
  gas_price : Nat
  value : Nat
  kind_is_call : Bool
  mint : Option Nat := none
  refund_recipient : Option Nat := none
  gas_used_override : Option Nat := none
  force_fail : Bool := false
  max_balance_spending : Nat := 0
  effective_balance_spending : Nat := 0
  base_effective_gas_price : Nat := 0
  deriving Repr, DecidableEq

namespace Tx

/-- `ZkTxTr::is_l1_to_l2_tx`. -/
def is_l1_to_l2_tx (tx : Tx) : Bool :=
  tx.tx_type == UPGRADE_TRANSACTION_TYPE || tx.tx_type == L1_PRIORITY_TRANSACTION_TYPE

/-- `<ZKsyncTx as Transaction>::effective_gas_price`: L1→L2 transactions use
`gas_price` directly, ordinary transactions delegate to the base
transaction. -/
def effective_gas_price (tx : Tx) : Nat :=
  if tx.is_l1_to_l2_tx then tx.gas_price else tx.base_effective_gas_price

end Tx

/-! ## Handler state machine (`src/handler.rs`) -/

/-- The caller account as the handler sees it (`AccountInfo`): balance,
nonce and whether the account carries contract code (for the EIP-3607
check). -/
structure Account where
  balance : Nat
  nonce : Nat
  hasCode : Bool := false
  deriving Repr, DecidableEq

/-- Handler-level errors: the base `InvalidTransaction` variants the embedded
code can produce. -/
inductive HandlerError where
  | LackOfFundForMaxFee (fee : Nat) (balance : Nat)
  | RejectCallerWithCode
  | NonceTooHigh (tx : Nat) (state : Nat)
  | NonceTooLow (tx : Nat) (state : Nat)
  deriving Repr, DecidableEq

/-- Base-engine `validate_account_nonce_and_code`
(`revm::handler::pre_execution`): rejects a caller that has code unless
EIP-3607 is disabled, then compares the transaction nonce with the account
nonce unless the nonce check is disabled.  It mutates nothing. -/
def validate_account_nonce_and_code (acc : Account) (tx_nonce : Nat)
    (is_eip3607_disabled is_nonce_check_disabled : Bool) : Except HandlerError Unit :=
  if !is_eip3607_disabled && acc.hasCode then .error .RejectCallerWithCode
  else if !is_nonce_check_disabled then
    if tx_nonce > acc.nonce then .error (.NonceTooHigh tx_nonce acc.nonce)
    else if tx_nonce < acc.nonce then .error (.NonceTooLow tx_nonce acc.nonce)
    else .ok ()
  else .ok ()

/-- The journal entry the caller-adjustment records
(`caller_accounting_journal_entry`): the pre-mutation balance and the
call-kind flag. -/
structure CallerJournalEntry where
  old_balance : Nat
  is_call : Bool
  deriving Repr, DecidableEq

/-- `ZKsyncHandler::validate_against_state_and_deduct_caller`
(`src/handler.rs:128-196`), with the caller account threaded explicitly: each
`return Err` exit returns the account exactly as mutated up to that program
point (the source journals every mutation for rollback, but none happens
before an error exit). -/
def validate_against_state_and_deduct_caller
    (is_eip3607_disabled is_nonce_check_disabled : Bool) (tx : Tx) (acc : Account) :
    Except HandlerError CallerJournalEntry × Account :=
  let is_l1_to_l2_tx := tx.is_l1_to_l2_tx
  let mint := tx.mint.getD 0
  match (if !is_l1_to_l2_tx then
      validate_account_nonce_and_code acc tx.nonce is_eip3607_disabled
        is_nonce_check_disabled
    else .ok ()) with
  | .error e => (.error e, acc)
  | .ok () =>
    let old_balance := acc.balance
    let new_balance := usatAdd acc.balance mint
    if !is_l1_to_l2_tx && decide (tx.max_balance_spending > new_balance) then
      (.error (.LackOfFundForMaxFee tx.max_balance_spending new_balance), acc)
    else
      let gas_balance_spending := tx.effective_balance_spending - tx.value
      let new_balance := usatSub new_balance gas_balance_spending
      let acc := { acc with balance := new_balance }
      let acc := if !is_l1_to_l2_tx && tx.kind_is_call then
          { acc with nonce := satAdd64 acc.nonce 1 }
        else acc
      (.ok { old_balance := old_balance, is_call := tx.kind_is_call }, acc)

/-- `revm::interpreter::Gas`: gas limit, remaining gas and the refund
counter (non-negative throughout this code, so carried as `Nat`). -/
structure GasRec where
  limit : Nat
  remaining : Nat
  refunded : Nat := 0
  deriving Repr, DecidableEq

namespace GasRec

/-- `Gas::new` — a fresh gas object with all gas remaining. -/
def new (limit : Nat) : GasRec := { limit := limit, remaining := limit }

/-- `Gas::new_spent` — a gas object with all gas spent. -/
def new_spent (limit : Nat) : GasRec := { limit := limit, remaining := 0 }

/-- `Gas::erase_cost` — returns gas, increasing the remaining gas. -/
def erase_cost (g : GasRec) (returned : Nat) : GasRec :=
  { g with remaining := g.remaining + returned }

/-- `Gas::spent` = `limit - remaining`. -/
def spent (g : GasRec) : Nat := g.limit - g.remaining

/-- `Gas::record_refund` (non-negative refunds only in this code). -/
def record_refund (g : GasRec) (refund : Nat) : GasRec :=
  { g with refunded := g.refunded + refund }

end GasRec

/-- A top-level frame result (`revm::handler::FrameResult`): the instruction
result, the raw output and the gas object.  The call/create distinction and
the memory range carry no information used here. -/
structure FrameResult where
  result : InstructionResult
  output : List Nat
  gas : GasRec
  deriving Repr, DecidableEq

/-- `InstructionResult::is_ok_or_revert`. -/
def InstructionResult.is_ok_or_revert : InstructionResult → Bool
  | .Return => true
  | .Revert => true
  | .OutOfGas => false

/-- `InstructionResult.is_ok`. -/
def InstructionResult.is_ok : InstructionResult → Bool
  | .Return => true
  | _ => false

/-- Base-engine `Handler::last_frame_result`, at its documented boundary (the
source comment at `src/handler.rs:306-307`): it re-creates the gas object as
`Gas::new_spent(gas_limit)`, restores the remaining gas when the result is a
normal return or revert, and re-records the refund when the result is a
normal return. -/
def last_frame_result (tx_gas_limit : Nat) (fr : FrameResult) : FrameResult :=
  let remaining := fr.gas.remaining
  let refunded := fr.gas.refunded
  let g := GasRec.new_spent tx_gas_limit
  let g := if fr.result.is_ok_or_revert then g.erase_cost remaining else g
  let g := if fr.result.is_ok then g.record_refund refunded else g
  { fr with gas := g }

/-- The forced-fail branch of `ZKsyncHandler::run_without_catch_error`
(`src/handler.rs:284-310`): synthesize a top-level REVERT frame result with
empty return data, rewrite its gas to `min(gas_used_override, gas_limit)`
spent, and pass it through `last_frame_result`. -/
def force_fail_frame_result (tx : Tx) : FrameResult :=
  let ir : FrameResult := { result := .Revert, output := [], gas := GasRec.new_spent 0 }
  let gas_limit := tx.gas_limit
  let gas_used := tx.gas_used_override.getD gas_limit
  let used := min gas_used gas_limit
  let unused := gas_limit - used
  let fr := { ir with gas := (GasRec.new_spent gas_limit).erase_cost unused }
  last_frame_result gas_limit fr

/-- The execution phase of `run_without_catch_error` (`src/handler.rs:285-313`):
a `force_fail` transaction short-circuits to the synthesized frame result,
leaving the state untouched and never entering the interpreter (`interp`);
otherwise execution is delegated to the interpreter. -/
def exec_phase {σ : Type} (tx : Tx) (st : σ) (interp : σ → FrameResult × σ) :
    FrameResult × σ :=
  if tx.force_fail then (force_fail_frame_result tx, st) else interp st

/-- Caller adjustment followed by the execution phase, as sequenced by
`run_without_catch_error` (`pre_execution` uses `?`, so any error aborts
before execution starts). -/
def deduct_caller_then_execute (is_eip3607_disabled is_nonce_check_disabled : Bool)
    (tx : Tx) (acc : Account) (interp : Account → FrameResult × Account) :
    Except HandlerError (FrameResult × Account) :=
  match validate_against_state_and_deduct_caller is_eip3607_disabled
      is_nonce_check_disabled tx acc with
  | (.error e, _) => .error e
  | (.ok _, acc) => .ok (exec_phase tx acc interp)

/-! ## Halt reasons and the deposit catch path -/

/-- `ZkHaltReason` (`src/result.rs`): either a base-engine halt reason
(opaque here) or the deposit-specific `FailedDeposit`. -/
inductive ZkHaltReason where
  | Base (reason : Nat)
  | FailedDeposit
  deriving Repr, DecidableEq

/-- `EVMError` at the handler boundary: `IsTxError::is_tx_error` holds
exactly for the `Transaction` variant (`src/handler.rs:65-69`). -/
inductive EvmError where
  | Transaction (e : HandlerError)
  | Database (code : Nat)
  | Custom (code : Nat)
  deriving Repr, DecidableEq

/-- `IsTxError::is_tx_error` (`src/handler.rs:66-68`). -/
def EvmError.is_tx_error : EvmError → Bool
  | .Transaction _ => true
  | _ => false

/-- A terminal execution result carrying the halt reason and the gas
reported as used. -/
structure ExecutionRes where
  haltReason : ZkHaltReason
  gasUsed : Nat
  deriving Repr, DecidableEq

/-- Modelled from the spec: the `catch_error` override of the ZKsync handler.
The repository declares its ingredients under `src/` — the
`ZkHaltReason::FailedDeposit` variant (`src/result.rs`) and the `IsTxError`
bound whose doc comment says it is "Used in cache_error handler to catch
deposit transaction that was halted" (`src/handler.rs:57-69`) — but the
override's body is not among the provided sources.  Following §4.1
"CatchError" of the spec: when the propagated error is a transaction-level
error and the transaction is cross-layer, all journaled effects of the
transaction are discarded (the state reverts to the pre-transaction snapshot
`pre`), then exactly two effects are re-applied — the caller's nonce
incremented by one and the caller's balance credited with the mint — and a
terminal `FailedDeposit` result reporting the full gas limit as used is
returned; any other error propagates unchanged. -/
def catch_error (tx : Tx) (err : EvmError) (pre cur : Account) :
    Except EvmError (ExecutionRes × Account) :=
  if err.is_tx_error && tx.is_l1_to_l2_tx then
    let reverted := pre
    let acc := { reverted with
      nonce := satAdd64 reverted.nonce 1,
      balance := usatAdd reverted.balance (tx.mint.getD 0) }
    .ok ({ haltReason := .FailedDeposit, gasUsed := tx.gas_limit }, acc)
  else
    .error err

/-! ## Caller reimbursement (`src/handler.rs:198-236`) -/

/-- The journal `transfer` can fail with an out-of-funds error. -/
inductive TransferError where
  | OutOfFunds
  deriving Repr, DecidableEq

/-- `ZKsyncHandler::reimburse_caller` (`src/handler.rs:198-236`), acting on
the balances of the caller and of the refund recipient (two distinct
accounts).  First the base-engine `reimburse_caller` credits the caller with
`effective_gas_price * (gas.remaining + gas.refunded)`; then, for an L1→L2
transaction, the designated refund recipient additionally receives
`mint - value - spent_fee` (success) or `mint - spent_fee` (failure).
`none` models a Rust panic: the `.expect` on a missing refund recipient, or
an underflowing `U256` subtraction in the additional-refund amount. -/
def reimburse_caller (tx : Tx) (gas : GasRec) (is_success : Bool)
    (callerBal recipientBal : Nat) :
    Option (Except TransferError (Nat × Nat)) :=
  let egp := tx.effective_gas_price
  let callerBal := usatAdd callerBal (egp * (gas.remaining + gas.refunded))
  if tx.is_l1_to_l2_tx then
    match tx.refund_recipient with
    | none => none  -- `.expect("Refund recipient is missing for L1 -> L2 tx")`
    | some _ =>
      let spent_fee := gas.spent * egp
      let mint := tx.mint.getD 0
      let value := tx.value
      if is_success then
        if mint < value + spent_fee then none  -- `mint - value - spent_fee` underflows
        else
          let additional_refund := mint - value - spent_fee
          if callerBal < additional_refund then some (.error .OutOfFunds)
          else some (.ok (callerBal - additional_refund,
            usatAdd recipientBal additional_refund))
      else
        if mint < spent_fee then none  -- `mint - spent_fee` underflows
        else
          let additional_refund := mint - spent_fee
          if callerBal < additional_refund then some (.error .OutOfFunds)
          else some (.ok (callerBal - additional_refund,
            usatAdd recipientBal additional_refund))
  else some (.ok (callerBal, recipientBal))

/-! ## Helper lemmas -/

theorem fromBe_append_singleton (xs : List Nat) (b : Nat) :
    fromBe (xs ++ [b]) = fromBe xs * 256 + b := by
  simp [fromBe, List.foldl_append]

theorem fromBe_beBytes (k v : Nat) : fromBe (beBytes k v) = v % 256 ^ k := by
  induction k generalizing v with
  | zero => simp [beBytes, fromBe, Nat.mod_one]
  | succ k ih =>
    rw [beBytes, fromBe_append_singleton, ih]
    rw [Nat.pow_succ, Nat.mul_comm (256 ^ k) 256, Nat.mod_mul]
    ring

theorem length_beBytes (k v : Nat) : (beBytes k v).length = k := by
  induction k generalizing v with
  | zero => simp [beBytes]
  | succ k ih => simp [beBytes, ih]

theorem fromBe_beBytes_of_lt (k v : Nat) (h : v < 256 ^ k) :
    fromBe (beBytes k v) = v := by
  rw [fromBe_beBytes, Nat.mod_eq_of_lt h]

theorem get_tokens_aux (l : List Nat) (n : Nat) :
    l.foldl (fun acc b => acc + if b = 0 then 1 else NON_ZERO_BYTE_MULTIPLIER_ISTANBUL) n =
      n + (l.filter (fun b => b == 0)).length +
        NON_ZERO_BYTE_MULTIPLIER_ISTANBUL * (l.filter (fun b => !(b == 0))).length := by
  induction l generalizing n with
  | nil => simp
  | cons b l ih =>
    rw [List.foldl_cons, ih]
    by_cases hb : b = 0 <;>
      simp [List.filter_cons, hb, NON_ZERO_BYTE_MULTIPLIER_ISTANBUL] <;> omega

/-- `get_tokens_in_calldata` counts each zero byte with weight 1 and each
non-zero byte with weight 4. -/
theorem get_tokens_in_calldata_eq (input : List Nat) :
    get_tokens_in_calldata input =
      (input.filter (fun b => b == 0)).length +
        4 * (input.filter (fun b => !(b == 0))).length := by
  simpa [get_tokens_in_calldata, NON_ZERO_BYTE_MULTIPLIER_ISTANBUL] using
    get_tokens_aux input 0

theorem head?_replicate_pos {α : Type} (n : Nat) (a : α) (h : 0 < n) :
    (List.replicate n a).head? = some a := by
  cases n with
  | zero => omega
  | succ n => simp [List.replicate_succ]

theorem wordword_take32 (a b : Nat) (rest : List Nat) :
    (beBytes 32 a ++ (beBytes 32 b ++ rest)).take 32 = beBytes 32 a :=
  List.take_left' (length_beBytes 32 a)

theorem wordword_drop32_take (a b : Nat) (rest : List Nat) :
    ((beBytes 32 a ++ (beBytes 32 b ++ rest)).drop 32).take 32 = beBytes 32 b := by
  rw [List.drop_left' (length_beBytes 32 a)]
  exact List.take_left' (length_beBytes 32 b)

theorem wordword_drop64 (a b : Nat) (rest : List Nat) :
    (beBytes 32 a ++ (beBytes 32 b ++ rest)).drop 64 = rest := by
  have h1 : (beBytes 32 a ++ (beBytes 32 b ++ rest)).drop 64 =
      ((beBytes 32 a ++ (beBytes 32 b ++ rest)).drop 32).drop 32 := by
    rw [List.drop_drop]
  rw [h1, List.drop_left' (length_beBytes 32 a),
    List.drop_left' (length_beBytes 32 b)]

theorem wordword_length (a b : Nat) (rest : List Nat) :
    (beBytes 32 a ++ (beBytes 32 b ++ rest)).length = 64 + rest.length := by
  simp [length_beBytes]
  omega

theorem encodeSendToL1_eq (m : List Nat) :
    encodeSendToL1 m = SEND_TO_L1_SELECTOR ++ (beBytes 32 32 ++
      (beBytes 32 m.length ++
        (m ++ List.replicate ((32 - m.length % 32) % 32) 0))) := by
  simp [encodeSendToL1, List.append_assoc]

/-- Evaluation of the messenger precompile on well-formed `sendToL1(bytes)`
calldata: the call succeeds exactly when the gas limit covers the total
charge. -/
theorem messenger_call_encode (caller gl : Nat) (m : List Nat)
    (hgl : 10 ≤ gl) (hn : m.length ≤ 2 ^ 31) :
    l1_messenger_precompile_call caller false gl 0 (encodeSendToL1 m) =
      if gl < messengerGasCharged m.length then messengerOog
      else
        { result := .Return, output := some (.keccakOf m),
          gasRemaining := gl - messengerGasCharged m.length,
          logs := [{ address := L1_MESSENGER_ADDRESS,
                     topics := [.val L1_MESSAGE_SENT_TOPIC, .val caller,
                       .keccakOf m],
                     data := beBytes 32 32 ++ (beBytes 32 m.length ++
                       (m ++ List.replicate ((32 - m.length % 32) % 32) 0)) }],
          hashed := [m] } := by
  have hassoc := encodeSendToL1_eq m
  have hdrop4 : (encodeSendToL1 m).drop 4 = beBytes 32 32 ++
      (beBytes 32 m.length ++ (m ++ List.replicate ((32 - m.length % 32) % 32) 0)) := by
    rw [hassoc]; exact List.drop_left' rfl
  have htake4 : (encodeSendToL1 m).take 4 = SEND_TO_L1_SELECTOR := by
    rw [hassoc]; exact List.take_left' rfl
  have hlen : (encodeSendToL1 m).length =
      68 + (m.length + (32 - m.length % 32) % 32) := by
    rw [hassoc, List.length_append, wordword_length]
    simp [SEND_TO_L1_SELECTOR]
    omega
  have hcdlen : (beBytes 32 32 ++ (beBytes 32 m.length ++
      (m ++ List.replicate ((32 - m.length % 32) % 32) 0))).length =
      64 + (m.length + (32 - m.length % 32) % 32) := by
    rw [wordword_length]
    simp
  have hofw : fromBe ((beBytes 32 32 ++ (beBytes 32 m.length ++
      (m ++ List.replicate ((32 - m.length % 32) % 32) 0))).take 32) = 32 := by
    rw [wordword_take32]
    exact fromBe_beBytes_of_lt 32 32 (by norm_num)
  have hlw : fromBe (((beBytes 32 32 ++ (beBytes 32 m.length ++
      (m ++ List.replicate ((32 - m.length % 32) % 32) 0))).drop 32).take 32) =
      m.length := by
    rw [wordword_drop32_take]
    exact fromBe_beBytes_of_lt 32 m.length (lt_of_le_of_lt hn (by norm_num))
  have hmsg : (((beBytes 32 32 ++ (beBytes 32 m.length ++
      (m ++ List.replicate ((32 - m.length % 32) % 32) 0))).drop 64).take m.length)
      = m := by
    rw [wordword_drop64]
    exact List.take_left' rfl
  have hpad : (32 - m.length % 32) % 32 < 32 := Nat.mod_lt _ (by norm_num)
  have hmod : (64 + (m.length + (32 - m.length % 32) % 32)) % 32 = 0 := by omega
  simp only [l1_messenger_precompile_call, hdrop4, htake4, hlen, hcdlen, hofw, hlw]
  norm_num [U32_MAX, satAdd64, satMul64, U64_MAX, KECCAK256_GAS, KECCAK256WORD_GAS,
    LOG_GAS, LOGTOPIC_GAS, LOGDATA_GAS, messengerGasCharged, hmsg, hmod]
  split_ifs
  all_goals try rfl
  all_goals try omega
  all_goals simp only [MessengerResult.mk.injEq, and_true, true_and]
  all_goals omega

/-- Evaluation of the deployer precompile on well-formed
`setDeployedCodeEVM(address,bytes)` calldata from the authorized caller. -/
theorem deployer_call_encode (addr20 code : List Nat) (h20 : addr20.length = 20)
    (haddr : fromBe addr20 < 2 ^ 160) (hcode : code.length < 2 ^ 64) :
    deployer_precompile_call L2_GENESIS_UPGRADE_ADDRESS false
        (encodeSetDeployedCode addr20 code) =
      if (code ≠ [] ∧ code.head? = some 0xEF) ∨ code.length > MAX_CODE_SIZE
      then some .Revert else some .Return := by
  have hassoc : encodeSetDeployedCode addr20 code =
      SET_DEPLOYED_CODE_EVM_SELECTOR ++ setCodeTail addr20 code := by
    simp [encodeSetDeployedCode, setCodeTail, List.append_assoc]
  have hdrop4 : (encodeSetDeployedCode addr20 code).drop 4 = setCodeTail addr20 code := by
    rw [hassoc]; exact List.drop_left' rfl
  have htake4 : (encodeSetDeployedCode addr20 code).take 4 =
      SET_DEPLOYED_CODE_EVM_SELECTOR := by
    rw [hassoc]; exact List.take_left' rfl
  have hlen : (encodeSetDeployedCode addr20 code).length = 100 + code.length := by
    rw [hassoc]
    simp [setCodeTail, length_beBytes, h20, SET_DEPLOYED_CODE_EVM_SELECTOR]
    omega
  have hcdlen : (setCodeTail addr20 code).length = 96 + code.length := by
    simp [setCodeTail, length_beBytes, h20]
    omega
  have htake12 : (setCodeTail addr20 code).take 12 = List.replicate 12 0 :=
    List.take_left' (by simp)
  have hdrop12 : (setCodeTail addr20 code).drop 12 =
      addr20 ++ (beBytes 32 64 ++ (beBytes 32 code.length ++ code)) :=
    List.drop_left' (by simp)
  have haddr_slice : ((setCodeTail addr20 code).drop 12).take 20 = addr20 := by
    rw [hdrop12]; exact List.take_left' h20
  have hdrop32 : (setCodeTail addr20 code).drop 32 =
      beBytes 32 64 ++ (beBytes 32 code.length ++ code) := by
    have h1 : (setCodeTail addr20 code).drop 32 =
        ((setCodeTail addr20 code).drop 12).drop 20 := by
      rw [List.drop_drop]
    rw [h1, hdrop12]; exact List.drop_left' h20
  have hoff : fromBe (((setCodeTail addr20 code).drop 32).take 32) = 64 := by
    rw [hdrop32, List.take_left' (length_beBytes 32 64)]
    exact fromBe_beBytes_of_lt 32 64 (by norm_num)
  have hdrop64 : (setCodeTail addr20 code).drop 64 =
      beBytes 32 code.length ++ code := by
    have h1 : (setCodeTail addr20 code).drop 64 =
        ((setCodeTail addr20 code).drop 32).drop 32 := by
      rw [List.drop_drop]
    rw [h1, hdrop32]; exact List.drop_left' (length_beBytes 32 64)
  have hlenw : fromBe (((setCodeTail addr20 code).drop 64).take 32) = code.length := by
    rw [hdrop64, List.take_left' (length_beBytes 32 code.length)]
    exact fromBe_beBytes_of_lt 32 code.length (lt_trans hcode (by norm_num))
  have hdrop96 : (setCodeTail addr20 code).drop 96 = code := by
    have h1 : (setCodeTail addr20 code).drop 96 =
        ((setCodeTail addr20 code).drop 64).drop 32 := by
      rw [List.drop_drop]
    rw [h1, hdrop64]; exact List.drop_left' (length_beBytes 32 code.length)
  have hbyte : ((setCodeTail addr20 code).drop 96).take code.length = code := by
    rw [hdrop96]; simp
  have hany : (List.replicate 12 (0 : Nat)).any (fun b => decide (b ≠ 0)) = false := by
    decide
  have hna : ¬ fromBe addr20 ≥ 2 ^ 160 := not_le.mpr haddr
  have hnc : ¬ code.length ≥ 2 ^ 64 := not_le.mpr hcode
  simp only [deployer_precompile_call, hlen, htake4, hdrop4, hcdlen, htake12, hany,
    haddr_slice, hoff]
  norm_num [hna, hnc, U64_MAX]
  simp only [hlenw]
  rw [hbyte, hcdlen]
  have hiff : ((¬code.length = 0 ∧ 96 < 96 + code.length) ∧ code.head? = some 239 ∨
      MAX_CODE_SIZE < code.length ∧ MAX_CODE_SIZE < 96 + code.length - 96) ↔
      (¬code = [] ∧ code.head? = some 239 ∨ MAX_CODE_SIZE < code.length) := by
    constructor
    · rintro (⟨⟨h0, _⟩, hh⟩ | ⟨h1, _⟩)
      · exact Or.inl ⟨fun he => h0 (by simp [he]), hh⟩
      · exact Or.inr h1
    · rintro (⟨h0, hh⟩ | h1)
      · have hne : ¬ code.length = 0 := fun he => h0 (List.length_eq_zero.mp he)
        exact Or.inl ⟨⟨hne, by omega⟩, hh⟩
      · exact Or.inr ⟨h1, by omega⟩
  simp only [hiff]
  have haddr2 : fromBe addr20 < 1461501637330902918203684832716283019655932542976 :=
    lt_of_lt_of_le haddr (by norm_num)
  have hcode2 : code.length < 18446744073709551616 :=
    lt_of_lt_of_le hcode (by norm_num)
  split_ifs
  all_goals try rfl
  all_goals try omega

/-! ## Claim theorems -/

/-- C6: for every calldata input, the legacy (pre-Ecotone) L1 cost equals
`(tokens × per-token gas cost + fee_overhead) × base_fee × base_fee_scalar`,
integer-divided (truncating) by 1,000,000, where `tokens` counts each zero
byte of the input with weight 1 and each non-zero byte with weight 4 (stated
under no-saturation side conditions on the `u64`/`U256` arithmetic). -/
theorem legacy_l1_cost_formula (info : L1BlockInfo) (input : List Nat)
    (h64 : get_tokens_in_calldata input * STANDARD_TOKEN_COST ≤ U64_MAX)
    (h1 : get_tokens_in_calldata input * STANDARD_TOKEN_COST +
      info.l1_fee_overhead.getD 0 ≤ U256_MAX)
    (h2 : (get_tokens_in_calldata input * STANDARD_TOKEN_COST +
      info.l1_fee_overhead.getD 0) * info.l1_base_fee ≤ U256_MAX)
    (h3 : (get_tokens_in_calldata input * STANDARD_TOKEN_COST +
      info.l1_fee_overhead.getD 0) * info.l1_base_fee * info.l1_base_fee_scalar
      ≤ U256_MAX) :
    info.calculate_tx_l1_cost_bedrock input =
      (((input.filter (fun b => b == 0)).length +
          4 * (input.filter (fun b => !(b == 0))).length) * STANDARD_TOKEN_COST +
        info.l1_fee_overhead.getD 0) * info.l1_base_fee * info.l1_base_fee_scalar
        / 1000000 := by
  simp only [L1BlockInfo.calculate_tx_l1_cost_bedrock, L1BlockInfo.data_gas,
    satMul64, usatAdd, usatMul]
  rw [min_eq_left h64, min_eq_left h1, min_eq_left h2, min_eq_left h3,
    get_tokens_in_calldata_eq]

theorem legacy_l1_cost_formula_witness :
    get_tokens_in_calldata [0, 1, 2] * STANDARD_TOKEN_COST ≤ U64_MAX ∧
    (({ l1_base_fee := 5, l1_fee_overhead := some 100, l1_base_fee_scalar := 1000000 } :
        L1BlockInfo).calculate_tx_l1_cost_bedrock [0, 1, 2] =
      ((([0, 1, 2].filter (fun b => b == 0)).length +
          4 * ([0, 1, 2].filter (fun b => !(b == 0))).length) * STANDARD_TOKEN_COST +
        (some 100 : Option Nat).getD 0) * 5 * 1000000 / 1000000) :=
  ⟨by decide,
    legacy_l1_cost_formula
      { l1_base_fee := 5, l1_fee_overhead := some 100, l1_base_fee_scalar := 1000000 }
      [0, 1, 2] (by decide) (by decide) (by decide) (by decide)⟩

/-- C4: the claim says `calculate_tx_l1_cost` computes the active-era
(Ecotone) cost and caches it in the memo when the memo is unset.  The code
does not: with the memo unset it returns zero and leaves the memo unset,
although the Ecotone formula on the same snapshot and input (base fee 1000,
base-fee scalar 2,000,000, 16 non-zero calldata bytes) yields 512,000.  With
the memo set it does return the memoized value unchanged. -/
theorem tx_l1_cost_stub_returns_zero_and_does_not_cache :
    (({ l1_base_fee := 1000, l1_base_fee_scalar := 2000000, l1_blob_base_fee := some 0,
        l1_blob_base_fee_scalar := some 0, tx_l1_cost := none } :
        L1BlockInfo).calculate_tx_l1_cost (List.replicate 16 1)).1 = 0 ∧
    (({ l1_base_fee := 1000, l1_base_fee_scalar := 2000000, l1_blob_base_fee := some 0,
        l1_blob_base_fee_scalar := some 0, tx_l1_cost := none } :
        L1BlockInfo).calculate_tx_l1_cost (List.replicate 16 1)).2.tx_l1_cost = none ∧
    ({ l1_base_fee := 1000, l1_base_fee_scalar := 2000000, l1_blob_base_fee := some 0,
        l1_blob_base_fee_scalar := some 0, tx_l1_cost := none } :
        L1BlockInfo).calculate_tx_l1_cost_ecotone (List.replicate 16 1) = 512000 ∧
    (({ l1_base_fee := 1000, l1_base_fee_scalar := 2000000, l1_blob_base_fee := some 0,
        l1_blob_base_fee_scalar := some 0, tx_l1_cost := some 512000 } :
        L1BlockInfo).calculate_tx_l1_cost (List.replicate 16 1)).1 = 512000 := by
  decide

/-- C5: the claim says `warm_addresses` and `contains` include the three
fixed system-contract addresses.  The code delegates both to the inner
Ethereum precompile set, which contains none of the three, although `run`
does intercept all three. -/
theorem warm_set_misses_system_contracts :
    contains CONTRACT_DEPLOYER_ADDRESS = false ∧
    contains L1_MESSENGER_ADDRESS = false ∧
    contains L2_BASE_TOKEN_ADDRESS = false ∧
    CONTRACT_DEPLOYER_ADDRESS ∉ warm_addresses ∧
    L1_MESSENGER_ADDRESS ∉ warm_addresses ∧
    L2_BASE_TOKEN_ADDRESS ∉ warm_addresses ∧
    run_intercepts CONTRACT_DEPLOYER_ADDRESS = true ∧
    run_intercepts L1_MESSENGER_ADDRESS = true ∧
    run_intercepts L2_BASE_TOKEN_ADDRESS = true := by
  decide

set_option maxHeartbeats 1000000 in
/-- C7 (amended): for every `sendToL1` call whose ABI-declared message length
exceeds the remaining calldata (`offset + 32 + declared_length` is larger
than the supplied post-selector calldata), the precompile reverts, hashes no
message and emits no log.  (A declared length smaller than the remaining
calldata is accepted as trailing padding — see the counterexample theorem —
so the claim's broader "does not match" reading fails.) -/
theorem messenger_declared_length_exceeds_reverts (caller value gl len : Nat)
    (static : Bool) (tail : List Nat) (hgl : 10 ≤ gl) (hlen : len < 2 ^ 256)
    (hx : tail.length < len) :
    (l1_messenger_precompile_call caller static gl value
        (SEND_TO_L1_SELECTOR ++ (beBytes 32 32 ++ (beBytes 32 len ++ tail)))).result =
      .Revert ∧
    (l1_messenger_precompile_call caller static gl value
        (SEND_TO_L1_SELECTOR ++ (beBytes 32 32 ++ (beBytes 32 len ++ tail)))).logs =
      [] ∧
    (l1_messenger_precompile_call caller static gl value
        (SEND_TO_L1_SELECTOR ++ (beBytes 32 32 ++ (beBytes 32 len ++ tail)))).hashed =
      [] := by
  have hdrop4 : (SEND_TO_L1_SELECTOR ++ (beBytes 32 32 ++ (beBytes 32 len ++ tail))).drop 4
      = beBytes 32 32 ++ (beBytes 32 len ++ tail) := List.drop_left' rfl
  have htake4 : (SEND_TO_L1_SELECTOR ++ (beBytes 32 32 ++ (beBytes 32 len ++ tail))).take 4
      = SEND_TO_L1_SELECTOR := List.take_left' rfl
  have hXlen : (beBytes 32 32 ++ (beBytes 32 len ++ tail)).length = 64 + tail.length :=
    wordword_length 32 len tail
  have hofw : fromBe ((beBytes 32 32 ++ (beBytes 32 len ++ tail)).take 32) = 32 := by
    rw [wordword_take32]
    exact fromBe_beBytes_of_lt 32 32 (by norm_num)
  have hlw : fromBe (((beBytes 32 32 ++ (beBytes 32 len ++ tail)).drop 32).take 32) =
      len := by
    rw [wordword_drop32_take]
    exact fromBe_beBytes_of_lt 32 len hlen
  refine ⟨?_, ?_, ?_⟩ <;>
    · simp only [l1_messenger_precompile_call, hdrop4, htake4, hXlen, hofw, hlw]
      norm_num [U32_MAX]
      split_ifs <;> first | rfl | omega | simp [messengerRevert] | simp [messengerOog]

theorem messenger_declared_length_exceeds_reverts_witness :
    (l1_messenger_precompile_call 7 false 2000 0
        (SEND_TO_L1_SELECTOR ++ (beBytes 32 32 ++ (beBytes 32 33 ++
          List.replicate 32 0)))).result = .Revert ∧
    (l1_messenger_precompile_call 7 false 2000 0
        (SEND_TO_L1_SELECTOR ++ (beBytes 32 32 ++ (beBytes 32 33 ++
          List.replicate 32 0)))).logs = [] ∧
    (l1_messenger_precompile_call 7 false 2000 0
        (SEND_TO_L1_SELECTOR ++ (beBytes 32 32 ++ (beBytes 32 33 ++
          List.replicate 32 0)))).hashed = [] :=
  messenger_declared_length_exceeds_reverts 7 0 2000 33 false (List.replicate 32 0)
    (by norm_num) (by norm_num) (by simp)

set_option maxRecDepth 10000 in
/-- C8 (counterexample to the claim as stated): for the 32-byte message of
ones, the five-term cost formula of the claim sums to 1792, yet a valid
`sendToL1` call supplied with exactly 1792 gas fails with out-of-gas — the
code charges an additional fixed cost of 10 before the hash/log costs. -/
theorem messenger_claimed_gas_oog :
    KECCAK256_GAS + KECCAK256WORD_GAS * ((32 + 31) / 32) +
      (LOG_GAS + 3 * LOGTOPIC_GAS + LOGDATA_GAS * 32) = 1792 ∧
    (l1_messenger_precompile_call 7 false 1792 0
        (encodeSendToL1 (List.replicate 32 1))).result = .OutOfGas := by
  decide

/-- C8 (amended): the total gas the messenger charges for an `n`-byte message
is `10 + fixed_hash_cost + ceil(n/32)×per_word_cost + fixed_log_cost +
3×per_topic_cost + n×per_data_byte_cost`; any gas limit at least that total
succeeds with exactly that much charged, and one unit less fails with
out-of-gas. -/
theorem messenger_gas_exactness (caller : Nat) (m : List Nat)
    (hn : m.length ≤ 2 ^ 31) :
    (∀ gl, messengerGasCharged m.length ≤ gl →
        (l1_messenger_precompile_call caller false gl 0
          (encodeSendToL1 m)).result = .Return ∧
        (l1_messenger_precompile_call caller false gl 0
          (encodeSendToL1 m)).gasRemaining = gl - messengerGasCharged m.length) ∧
    (l1_messenger_precompile_call caller false (messengerGasCharged m.length - 1) 0
        (encodeSendToL1 m)).result = .OutOfGas ∧
    messengerGasCharged m.length =
      10 + (KECCAK256_GAS + KECCAK256WORD_GAS * ((m.length + 31) / 32)) +
        (LOG_GAS + 3 * LOGTOPIC_GAS + LOGDATA_GAS * m.length) := by
  have htotal : messengerGasCharged m.length =
      1540 + 6 * ((m.length + 31) / 32) + 8 * m.length := by
    simp [messengerGasCharged, KECCAK256_GAS, KECCAK256WORD_GAS, LOG_GAS,
      LOGTOPIC_GAS, LOGDATA_GAS]
    ring
  refine ⟨fun gl hge => ?_, ?_, rfl⟩
  · rw [messenger_call_encode caller gl m (by omega) hn,
      if_neg (not_lt.mpr hge)]
    exact ⟨rfl, rfl⟩
  · rw [messenger_call_encode caller _ m (by omega) hn,
      if_pos (by omega)]
    rfl

theorem messenger_gas_exactness_witness :
    (List.replicate 32 1).length ≤ 2 ^ 31 ∧
    messengerGasCharged (List.replicate 32 1).length ≤ 1802 ∧
    ((l1_messenger_precompile_call 7 false 1802 0
        (encodeSendToL1 (List.replicate 32 1))).result = .Return ∧
      (l1_messenger_precompile_call 7 false 1802 0
        (encodeSendToL1 (List.replicate 32 1))).gasRemaining =
        1802 - messengerGasCharged (List.replicate 32 1).length) ∧
    (l1_messenger_precompile_call 7 false
        (messengerGasCharged (List.replicate 32 1).length - 1) 0
        (encodeSendToL1 (List.replicate 32 1))).result = .OutOfGas :=
  ⟨by decide, by decide,
    (messenger_gas_exactness 7 (List.replicate 32 1) (by decide)).1 1802 (by decide),
    (messenger_gas_exactness 7 (List.replicate 32 1) (by decide)).2.1⟩

set_option maxRecDepth 10000 in
/-- C7 (counterexample to the claim as stated): a `sendToL1` call whose
declared length (0) differs from the remaining calldata length (32 bytes
remain after the length word) does not revert: the code treats the surplus
as padding, hashes the empty message and emits a log. -/
theorem messenger_length_mismatch_accepted :
    fromBe ((((SEND_TO_L1_SELECTOR ++ (beBytes 32 32 ++ (beBytes 32 0 ++
        List.replicate 32 0))).drop 4).drop 32).take 32) = 0 ∧
    ((SEND_TO_L1_SELECTOR ++ (beBytes 32 32 ++ (beBytes 32 0 ++
        List.replicate 32 0))).drop 4).length - 64 = 32 ∧
    (l1_messenger_precompile_call 7 false 2000 0
        (SEND_TO_L1_SELECTOR ++ (beBytes 32 32 ++ (beBytes 32 0 ++
          List.replicate 32 0)))).result = .Return ∧
    (l1_messenger_precompile_call 7 false 2000 0
        (SEND_TO_L1_SELECTOR ++ (beBytes 32 32 ++ (beBytes 32 0 ++
          List.replicate 32 0)))).logs ≠ [] ∧
    (l1_messenger_precompile_call 7 false 2000 0
        (SEND_TO_L1_SELECTOR ++ (beBytes 32 32 ++ (beBytes 32 0 ++
          List.replicate 32 0)))).hashed = [[]] := by
  decide

/-- C9: any caller other than the hard-coded genesis-upgrade address is
rejected with a revert on every `setDeployedCodeEVM` call, whatever the
calldata; for the authorized caller with well-formed calldata, a bytecode of
exactly `MAX_CODE_SIZE` (0x6000) bytes (not starting with the forbidden
`0xEF` byte) succeeds while one byte more reverts. -/
theorem deployer_caller_and_size_limits (addr20 code : List Nat) :
    (∀ (caller : Nat) (is_static : Bool) (calldata : List Nat),
        calldata.take 4 = SET_DEPLOYED_CODE_EVM_SELECTOR →
        caller ≠ L2_GENESIS_UPGRADE_ADDRESS →
        deployer_precompile_call caller is_static calldata = some .Revert) ∧
    (addr20.length = 20 → fromBe addr20 < 2 ^ 160 → code.length = MAX_CODE_SIZE →
        code.head? ≠ some 0xEF →
        deployer_precompile_call L2_GENESIS_UPGRADE_ADDRESS false
          (encodeSetDeployedCode addr20 code) = some .Return) ∧
    (addr20.length = 20 → fromBe addr20 < 2 ^ 160 →
        code.length = MAX_CODE_SIZE + 1 →
        deployer_precompile_call L2_GENESIS_UPGRADE_ADDRESS false
          (encodeSetDeployedCode addr20 code) = some .Revert) := by
  refine ⟨fun caller is_static calldata hsel hcaller => ?_, fun h20 haddr h6000 hhead => ?_,
    fun h20 haddr h6001 => ?_⟩
  · have hlen4 : 4 ≤ calldata.length := by
      have h := congrArg List.length hsel
      simp [List.length_take, SET_DEPLOYED_CODE_EVM_SELECTOR] at h
      omega
    cases is_static with
    | true => simp [deployer_precompile_call, hsel, Nat.not_lt.mpr hlen4]
    | false => simp [deployer_precompile_call, hsel, Nat.not_lt.mpr hlen4, hcaller]
  · rw [deployer_call_encode addr20 code h20 haddr
      (by rw [h6000]; norm_num [MAX_CODE_SIZE])]
    simp [h6000, hhead]
  · rw [deployer_call_encode addr20 code h20 haddr
      (by rw [h6001]; norm_num [MAX_CODE_SIZE])]
    simp [h6001]

theorem deployer_caller_and_size_limits_witness :
    deployer_precompile_call 5 false [0x12, 0x23, 0xad, 0xc7] = some .Revert ∧
    deployer_precompile_call L2_GENESIS_UPGRADE_ADDRESS false
      (encodeSetDeployedCode (List.replicate 20 0) (List.replicate MAX_CODE_SIZE 0)) =
      some .Return ∧
    deployer_precompile_call L2_GENESIS_UPGRADE_ADDRESS false
      (encodeSetDeployedCode (List.replicate 20 0)
        (List.replicate (MAX_CODE_SIZE + 1) 0)) = some .Revert :=
  ⟨(deployer_caller_and_size_limits [] []).1 5 false [0x12, 0x23, 0xad, 0xc7]
      (by rfl) (by decide),
    (deployer_caller_and_size_limits (List.replicate 20 0)
        (List.replicate MAX_CODE_SIZE 0)).2.1 (by simp) (by decide) (by simp)
      (by rw [head?_replicate_pos MAX_CODE_SIZE 0 (by decide)]; decide),
    (deployer_caller_and_size_limits (List.replicate 20 0)
        (List.replicate (MAX_CODE_SIZE + 1) 0)).2.2 (by simp) (by decide) (by simp)⟩

/-- C1: when a cross-layer transaction fails with a transaction-level error,
the catch path discards all journaled effects (the outcome depends only on
the pre-transaction snapshot, not on the current mutated state), re-applies
exactly the nonce increment by one and the mint credit to the caller, and
returns a terminal `FailedDeposit` result whose gas used is the full gas
limit, instead of propagating the error. -/
theorem failed_deposit_recovery (tx : Tx) (err : EvmError) (pre cur : Account)
    (herr : err.is_tx_error = true) (hl : tx.is_l1_to_l2_tx = true)
    (hn : pre.nonce + 1 ≤ U64_MAX) (hb : pre.balance + tx.mint.getD 0 ≤ U256_MAX) :
    catch_error tx err pre cur =
      .ok ({ haltReason := .FailedDeposit, gasUsed := tx.gas_limit },
        { balance := pre.balance + tx.mint.getD 0, nonce := pre.nonce + 1,
          hasCode := pre.hasCode }) := by
  simp [catch_error, herr, hl, satAdd64, usatAdd, min_eq_left hn, min_eq_left hb]

theorem failed_deposit_recovery_witness :
    (EvmError.Transaction (.LackOfFundForMaxFee 30000 4)).is_tx_error = true ∧
    ({ tx_type := 0x7F, nonce := 0, gas_limit := 21000, gas_price := 2, value := 7,
        kind_is_call := true, mint := some 500 } : Tx).is_l1_to_l2_tx = true ∧
    catch_error
        { tx_type := 0x7F, nonce := 0, gas_limit := 21000, gas_price := 2, value := 7,
          kind_is_call := true, mint := some 500 }
        (EvmError.Transaction (.LackOfFundForMaxFee 30000 4))
        { balance := 10, nonce := 3 } { balance := 999, nonce := 8 } =
      .ok ({ haltReason := .FailedDeposit, gasUsed := 21000 },
        { balance := 510, nonce := 4, hasCode := false }) :=
  ⟨by decide, by decide,
    failed_deposit_recovery
      { tx_type := 0x7F, nonce := 0, gas_limit := 21000, gas_price := 2, value := 7,
        kind_is_call := true, mint := some 500 }
      (EvmError.Transaction (.LackOfFundForMaxFee 30000 4))
      { balance := 10, nonce := 3 } { balance := 999, nonce := 8 }
      (by decide) (by decide) (by decide) (by decide)⟩

/-- C2: for an ordinary transaction (whose nonce/code validation passes),
whenever the maximum balance spending exceeds `balance + mint`, the caller
adjustment returns `LackOfFundForMaxFee` with the caller account exactly as
it was — the check runs before any mutation — and execution never starts. -/
theorem insufficient_funds_check_precedes_mutation
    (e3607 nonceDis : Bool) (tx : Tx) (acc : Account)
    (hord : tx.is_l1_to_l2_tx = false)
    (hval : validate_account_nonce_and_code acc tx.nonce e3607 nonceDis = .ok ())
    (hb : acc.balance + tx.mint.getD 0 ≤ U256_MAX)
    (hgt : tx.max_balance_spending > acc.balance + tx.mint.getD 0) :
    validate_against_state_and_deduct_caller e3607 nonceDis tx acc =
        (.error (.LackOfFundForMaxFee tx.max_balance_spending
          (acc.balance + tx.mint.getD 0)), acc) ∧
      ∀ interp : Account → FrameResult × Account,
        deduct_caller_then_execute e3607 nonceDis tx acc interp =
          .error (.LackOfFundForMaxFee tx.max_balance_spending
            (acc.balance + tx.mint.getD 0)) := by
  have hmain : validate_against_state_and_deduct_caller e3607 nonceDis tx acc =
      (.error (.LackOfFundForMaxFee tx.max_balance_spending
        (acc.balance + tx.mint.getD 0)), acc) := by
    simp [validate_against_state_and_deduct_caller, hord, hval, usatAdd,
      min_eq_left hb, hgt]
  exact ⟨hmain, fun interp => by simp [deduct_caller_then_execute, hmain]⟩

theorem insufficient_funds_check_precedes_mutation_witness :
    ({ tx_type := 2, nonce := 5, gas_limit := 21000, gas_price := 3, value := 1,
        kind_is_call := true, max_balance_spending := 1000 } : Tx).is_l1_to_l2_tx
        = false ∧
    validate_account_nonce_and_code { balance := 10, nonce := 5 } 5 false false
        = .ok () ∧
    (1000 : Nat) > 10 + 0 ∧
    validate_against_state_and_deduct_caller false false
        { tx_type := 2, nonce := 5, gas_limit := 21000, gas_price := 3, value := 1,
          kind_is_call := true, max_balance_spending := 1000 }
        { balance := 10, nonce := 5 } =
      (.error (.LackOfFundForMaxFee 1000 10), { balance := 10, nonce := 5 }) ∧
    deduct_caller_then_execute false false
        { tx_type := 2, nonce := 5, gas_limit := 21000, gas_price := 3, value := 1,
          kind_is_call := true, max_balance_spending := 1000 }
        { balance := 10, nonce := 5 }
        (fun a => ({ result := .Return, output := [], gas := GasRec.new 0 }, a)) =
      .error (.LackOfFundForMaxFee 1000 10) := by
  refine ⟨by decide, by rfl, by decide, ?_, ?_⟩
  · exact (insufficient_funds_check_precedes_mutation false false _ _
      (by decide) (by rfl) (by decide) (by decide)).1
  · exact (insufficient_funds_check_precedes_mutation false false _ _
      (by decide) (by rfl) (by decide) (by decide)).2 _

/-- C3: a `force_fail` transaction bypasses the interpreter entirely (the
execution phase ignores it and leaves the state unchanged) and yields a
synthesized top-level revert frame result with empty output whose gas spent
is `min(gas_used_override, gas_limit)`, the override defaulting to the gas
limit when absent. -/
theorem force_fail_short_circuit (tx : Tx) (hff : tx.force_fail = true) :
    (∀ (σ : Type) (st : σ) (interp : σ → FrameResult × σ),
        exec_phase tx st interp = (force_fail_frame_result tx, st)) ∧
    (force_fail_frame_result tx).result = .Revert ∧
    (force_fail_frame_result tx).output = [] ∧
    (force_fail_frame_result tx).gas.spent =
      min (tx.gas_used_override.getD tx.gas_limit) tx.gas_limit := by
  refine ⟨fun σ st interp => by simp [exec_phase, hff], ?_, ?_, ?_⟩ <;>
    simp [force_fail_frame_result, last_frame_result,
      InstructionResult.is_ok_or_revert, InstructionResult.is_ok,
      GasRec.new_spent, GasRec.erase_cost, GasRec.spent]
  omega

theorem force_fail_short_circuit_witness :
    ({ tx_type := 0x7F, nonce := 0, gas_limit := 1000, gas_price := 1, value := 0,
        kind_is_call := true, gas_used_override := some 700, force_fail := true } :
        Tx).force_fail = true ∧
    exec_phase
        { tx_type := 0x7F, nonce := 0, gas_limit := 1000, gas_price := 1, value := 0,
          kind_is_call := true, gas_used_override := some 700, force_fail := true }
        ({ balance := 5, nonce := 0 } : Account)
        (fun a => ({ result := .Return, output := [], gas := GasRec.new 0 }, a)) =
      (force_fail_frame_result
        { tx_type := 0x7F, nonce := 0, gas_limit := 1000, gas_price := 1, value := 0,
          kind_is_call := true, gas_used_override := some 700, force_fail := true },
        { balance := 5, nonce := 0 }) ∧
    (force_fail_frame_result
        { tx_type := 0x7F, nonce := 0, gas_limit := 1000, gas_price := 1, value := 0,
          kind_is_call := true, gas_used_override := some 700, force_fail := true }).gas.spent
      = min 700 1000 := by
  refine ⟨by decide, ?_, ?_⟩
  · exact (force_fail_short_circuit _ (by decide)).1 Account _ _
  · exact (force_fail_short_circuit _ (by decide)).2.2.2

/-- C10: for a cross-layer transaction, `reimburse_caller` is panic-free
exactly when the refund recipient is present and the mint covers
`value + spent_fee` (success) respectively `spent_fee` (failure); under those
preconditions the unchecked `U256` subtractions cannot underflow and the
`.expect` cannot fire. -/
theorem reimburse_caller_totality (tx : Tx) (gas : GasRec) (is_success : Bool)
    (callerBal recipientBal : Nat) (hl : tx.is_l1_to_l2_tx = true) :
    (reimburse_caller tx gas is_success callerBal recipientBal).isSome ↔
      (tx.refund_recipient.isSome ∧
        (if is_success then
          tx.value + gas.spent * tx.effective_gas_price ≤ tx.mint.getD 0
        else gas.spent * tx.effective_gas_price ≤ tx.mint.getD 0)) := by
  cases hrr : tx.refund_recipient with
  | none => simp [reimburse_caller, hl, hrr]
  | some r =>
    cases is_success <;>
      simp [reimburse_caller, hl, hrr] <;> split_ifs <;> simp_all

theorem reimburse_caller_totality_witness :
    ({ tx_type := 0x7F, nonce := 0, gas_limit := 100, gas_price := 2, value := 10,
        kind_is_call := true, mint := some 100000, refund_recipient := some 9 } :
        Tx).is_l1_to_l2_tx = true ∧
    ((reimburse_caller
        { tx_type := 0x7F, nonce := 0, gas_limit := 100, gas_price := 2, value := 10,
          kind_is_call := true, mint := some 100000, refund_recipient := some 9 }
        { limit := 100, remaining := 40 } true 50 60).isSome ↔
      ((some 9 : Option Nat).isSome ∧
        (if true then
          ({ tx_type := 0x7F, nonce := 0, gas_limit := 100, gas_price := 2, value := 10,
             kind_is_call := true, mint := some 100000, refund_recipient := some 9 } :
            Tx).value + ({ limit := 100, remaining := 40 } : GasRec).spent *
              ({ tx_type := 0x7F, nonce := 0, gas_limit := 100, gas_price := 2,
                 value := 10, kind_is_call := true, mint := some 100000,
                 refund_recipient := some 9 } : Tx).effective_gas_price ≤
            (some 100000 : Option Nat).getD 0
        else ({ limit := 100, remaining := 40 } : GasRec).spent *
            ({ tx_type := 0x7F, nonce := 0, gas_limit := 100, gas_price := 2,
               value := 10, kind_is_call := true, mint := some 100000,
               refund_recipient := some 9 } : Tx).effective_gas_price ≤
          (some 100000 : Option Nat).getD 0))) :=
  ⟨by decide,
    reimburse_caller_totality
      { tx_type := 0x7F, nonce := 0, gas_limit := 100, gas_price := 2, value := 10,
        kind_is_call := true, mint := some 100000, refund_recipient := some 9 }
      { limit := 100, remaining := 40 } true 50 60 (by decide)⟩

end ZkRevm
